import Mathlib

/-!
Verification development for the SecureCoda scanning and alert-lifecycle
engine (`src/unnamed/part_001`).  The JavaScript source is shallowly
embedded: pure functions become Lean functions, the mutable module state
(`documents`, `alerts`, `alertIdCounter`) becomes an explicit `State`
record threaded through the operations, the external Coda HTTP client
becomes a record of oracles returning `Except`, and timestamps
(`new Date().toISOString()` / `getTime()`) are modelled as integer
millisecond clocks passed in as a `now` parameter.
-/

namespace SecureCoda

/-! ## Basic enumerations (source lines 89-100, 103-112) -/

/-- `ALERT_STATUS` (source lines 95-100).  `open` is a Lean keyword, so the
constructor is spelled `open'`. -/
inductive AlertStatus where
  | open'
  | acknowledged
  | remediated
  | ignored
deriving DecidableEq, Repr

/-- `ALERT_TYPES` (source lines 89-93). -/
inductive AlertType where
  | unused_document
  | public_document
  | sensitive_data_table
deriving DecidableEq, Repr

/-- Severity strings used by the source: `low`, `medium`, `high`, `critical`. -/
inductive Severity where
  | low
  | medium
  | high
  | critical
deriving DecidableEq, Repr

/-- The keys of the `SENSITIVE_PATTERNS` object (source lines 103-112),
in insertion order; `ssn` is commented out in the source. -/
inductive DetectorType where
  | creditCard
  | email
  | phone
  | password
  | apiKey
  | awsKey
  | privateKey
deriving DecidableEq, Repr

/-- A JavaScript cell value as it appears in `row.values`.  `String(value)`
coercion is modelled by `jsToString`; objects are collapsed to a single
constructor since `String({})` is always `"[object Object]"`. -/
inductive JSValue where
  | str (s : String)
  | num (n : Int)
  | bool (b : Bool)
  | null
  | undef
  | obj
deriving DecidableEq, Repr

/-- JavaScript `String(value)` on the modelled values. -/
def jsToString : JSValue → String
  | .str s => s
  | .num n => toString n
  | .bool b => if b then "true" else "false"
  | .null => "null"
  | .undef => "undefined"
  | .obj => "[object Object]"

/-! ## Regular-expression engine

The seven source regexes only ever apply `*`, `+`, `{n}` and `{n,}` to
single character classes, so the AST restricts Kleene star to character
classes; this keeps the backtracking matcher structurally recursive while
reproducing JavaScript's leftmost, greedy, alternation-priority search.
-/

/-- Character classes occurring in the source patterns. -/
inductive CharCls where
  | digit
  | space
  | anyOf (cs : List Char)
  | rangeC (lo hi : Char)
  | orC (a b : CharCls)
  | negC (c : CharCls)
deriving DecidableEq, Repr

/-- Membership test.  `\d` is `[0-9]`; `\s` covers the ASCII whitespace
characters (the only ones exercised by the data model). -/
def clsMem : CharCls → Char → Bool
  | .digit, c => c.isDigit
  | .space, c =>
      c == ' ' || c == '\t' || c == '\n' || c == '\r' || c == '\x0b' || c == '\x0c'
  | .anyOf cs, c => cs.contains c
  | .rangeC lo hi, c => decide (lo ≤ c) && decide (c ≤ hi)
  | .orC a b, c => clsMem a c || clsMem b c
  | .negC a, c => !(clsMem a c)

/-- JavaScript `\w` for the purposes of `\b`: `[A-Za-z0-9_]`. -/
def isWordChar (c : Char) : Bool := c.isAlpha || c.isDigit || c == '_'

/-- Regex AST.  `wb` is the zero-width word boundary `\b`. -/
inductive Rx where
  | eps
  | cls (c : CharCls)
  | seq (a b : Rx)
  | alt (a b : Rx)
  | starCls (c : CharCls)
  | wb
deriving DecidableEq, Repr

/-- Sequence a list of regexes. -/
def Rx.seqs : List Rx → Rx
  | [] => .eps
  | [r] => r
  | r :: rest => .seq r (Rx.seqs rest)

/-- A literal character. -/
def litC (c : Char) : Rx := .cls (.anyOf [c])

/-- A case-sensitive literal string. -/
def litStr (s : String) : Rx := Rx.seqs (s.data.map litC)

/-- A case-insensitive character (for the `/gi` patterns). -/
def ciC (c : Char) : Rx := .cls (.anyOf [c.toLower, c.toUpper])

/-- A case-insensitive literal string. -/
def ciStr (s : String) : Rx := Rx.seqs (s.data.map ciC)

/-- `r?` (greedy: try `r` first, then the empty alternative). -/
def optR (r : Rx) : Rx := .alt r .eps

/-- `c+` on a character class. -/
def plusCls (c : CharCls) : Rx := .seq (.cls c) (.starCls c)

/-- `c{n}` on a character class. -/
def repCls (n : Nat) (c : CharCls) : Rx := Rx.seqs (List.replicate n (.cls c))

/-- `r{n}` on a regex. -/
def repR (n : Nat) (r : Rx) : Rx := Rx.seqs (List.replicate n r)

/-- `c{n,}` on a character class: `n` copies then a greedy star. -/
def atLeastCls (n : Nat) (c : CharCls) : Rx := .seq (repCls n c) (.starCls c)

/-- Greedy star over a class: all `(last consumed char, suffix)` outcomes in
backtracking priority order, longest consumption first. -/
def starRes (cl : CharCls) : Option Char → List Char → List (Option Char × List Char)
  | p, [] => [(p, [])]
  | p, ch :: rest =>
      if clsMem cl ch then starRes cl (some ch) rest ++ [(p, ch :: rest)]
      else [(p, ch :: rest)]

/-- The backtracking matcher: all ways the regex can consume a prefix of
`s`, as `(last consumed char, remaining suffix)` pairs, in JavaScript's
search priority order (greedy repetition, left alternative first).  The
`Option Char` argument is the character immediately before the current
position, needed for `\b`. -/
def matchL : Rx → Option Char → List Char → List (Option Char × List Char)
  | .eps, p, s => [(p, s)]
  | .cls _, _, [] => []
  | .cls cl, _, ch :: rest => if clsMem cl ch then [(some ch, rest)] else []
  | .seq a b, p, s => (matchL a p s).flatMap (fun pr => matchL b pr.1 pr.2)
  | .alt a b, p, s => matchL a p s ++ matchL b p s
  | .starCls cl, p, s => starRes cl p s
  | .wb, p, s =>
      let prevW := match p with | none => false | some c => isWordChar c
      let nextW := match s with | [] => false | c :: _ => isWordChar c
      if prevW != nextW then [(p, s)] else []

/-- The match JavaScript's engine commits to at the current position, if
any: the matched prefix together with the following context. -/
def tryMatch (r : Rx) (p : Option Char) (s : List Char) :
    Option (List Char × Option Char × List Char) :=
  match (matchL r p s).head? with
  | some pr => some (s.take (s.length - pr.2.length), pr.1, pr.2)
  | none => none

/-- Scan start positions left to right until the regex matches (the
leftmost-match rule of `RegExp.exec`). -/
def findFirst (r : Rx) : Option Char → List Char →
    Option (List Char × Option Char × List Char)
  | p, [] => tryMatch r p []
  | p, ch :: rest =>
      match tryMatch r p (ch :: rest) with
      | some res => some res
      | none => findFirst r (some ch) rest

/-- Repeated matching as in `text.match(re)` with the `g` flag: after each
match continue from its end; an empty match advances one position.  `fuel`
bounds the number of matches (text length + 1 suffices). -/
def gmatch (r : Rx) : Nat → Option Char → List Char → List (List Char)
  | 0, _, _ => []
  | fuel + 1, p, s =>
      match findFirst r p s with
      | none => []
      | some (m, p', s') =>
          if m.isEmpty then
            m :: (match s' with
                  | [] => []
                  | ch :: rest => gmatch r fuel (some ch) rest)
          else m :: gmatch r fuel p' s'

/-- All matches of a pattern in a text, as strings. -/
def matchesOn (r : Rx) (text : String) : List String :=
  (gmatch r (text.data.length + 1) none text.data).map String.mk

/-! ## The seven sensitive-data patterns (source lines 103-112) -/

/-- `[-\s]` in the credit-card pattern. -/
def dashOrSpace : CharCls := .orC (.anyOf ['-']) .space

/-- `[-.\s]` in the phone pattern. -/
def sepCls : CharCls := .orC (.anyOf ['-', '.']) .space

/-- `/\b(?:\d{4}[-\s]?){3}\d{4}\b/g` -/
def creditCardPattern : Rx :=
  Rx.seqs [.wb, repR 3 (Rx.seqs [repCls 4 .digit, optR (.cls dashOrSpace)]),
    repCls 4 .digit, .wb]

/-- `[A-Za-z0-9._%+-]` -/
def emailLocalCls : CharCls :=
  .orC (.rangeC 'A' 'Z') (.orC (.rangeC 'a' 'z')
    (.orC (.rangeC '0' '9') (.anyOf ['.', '_', '%', '+', '-'])))

/-- `[A-Za-z0-9.-]` -/
def emailDomainCls : CharCls :=
  .orC (.rangeC 'A' 'Z') (.orC (.rangeC 'a' 'z')
    (.orC (.rangeC '0' '9') (.anyOf ['.', '-'])))

/-- `[A-Z|a-z]` — the source class literally contains `|`. -/
def emailTldCls : CharCls :=
  .orC (.rangeC 'A' 'Z') (.orC (.anyOf ['|']) (.rangeC 'a' 'z'))

/-- `/\b[A-Za-z0-9._%+-]+@[A-Za-z0-9.-]+\.[A-Z|a-z]{2,}\b/g` -/
def emailPattern : Rx :=
  Rx.seqs [.wb, plusCls emailLocalCls, litC '@', plusCls emailDomainCls,
    litC '.', atLeastCls 2 emailTldCls, .wb]

/-- `/\b(?:\+?1[-.\s]?)?\(?\d{3}\)?[-.\s]?\d{3}[-.\s]?\d{4}\b/g` -/
def phonePattern : Rx :=
  Rx.seqs [.wb,
    optR (Rx.seqs [optR (litC '+'), litC '1', optR (.cls sepCls)]),
    optR (litC '('), repCls 3 .digit, optR (litC ')'),
    optR (.cls sepCls), repCls 3 .digit, optR (.cls sepCls),
    repCls 4 .digit, .wb]

/-- `/\b(?:password|passwd|pwd)\s*[:=]\s*\S+/gi` -/
def passwordPattern : Rx :=
  Rx.seqs [.wb, .alt (ciStr "password") (.alt (ciStr "passwd") (ciStr "pwd")),
    .starCls .space, .cls (.anyOf [':', '=']), .starCls .space,
    plusCls (.negC .space)]

/-- `[_-]` -/
def usDashCls : CharCls := .anyOf ['_', '-']

/-- `[A-Za-z0-9_\-]` -/
def keyCharsCls : CharCls :=
  .orC (.rangeC 'A' 'Z') (.orC (.rangeC 'a' 'z')
    (.orC (.rangeC '0' '9') (.anyOf ['_', '-'])))

/-- `['"]` -/
def quoteCls : CharCls := .anyOf [Char.ofNat 39, '"']

/-- The alternation `api[_-]?key|apikey|api[_-]?token|access[_-]?token|secret[_-]?key`. -/
def apiKeyNameRx : Rx :=
  .alt (Rx.seqs [ciStr "api", optR (.cls usDashCls), ciStr "key"])
    (.alt (ciStr "apikey")
      (.alt (Rx.seqs [ciStr "api", optR (.cls usDashCls), ciStr "token"])
        (.alt (Rx.seqs [ciStr "access", optR (.cls usDashCls), ciStr "token"])
          (Rx.seqs [ciStr "secret", optR (.cls usDashCls), ciStr "key"]))))

/-- `/\b(?:api[_-]?key|...)\s*[:=]\s*['"]?[A-Za-z0-9_\-]{10,}['"]?/gi` -/
def apiKeyPattern : Rx :=
  Rx.seqs [.wb, apiKeyNameRx, .starCls .space, .cls (.anyOf [':', '=']),
    .starCls .space, optR (.cls quoteCls), atLeastCls 10 keyCharsCls,
    optR (.cls quoteCls)]

/-- `/\bAKIA[0-9A-Z]{16}\b/g` -/
def awsKeyPattern : Rx :=
  Rx.seqs [.wb, litStr "AKIA",
    repCls 16 (.orC (.rangeC '0' '9') (.rangeC 'A' 'Z')), .wb]

/-- `/-----BEGIN\s+(?:RSA\s+)?PRIVATE\s+KEY-----/g` -/
def privateKeyPattern : Rx :=
  Rx.seqs [litStr "-----BEGIN", plusCls .space,
    optR (Rx.seqs [litStr "RSA", plusCls .space]),
    litStr "PRIVATE", plusCls .space, litStr "KEY", litStr "-----"]

/-- One entry of the `SENSITIVE_PATTERNS` object. -/
structure PatternConfig where
  pattern : Rx
  name : String
  severity : Severity
deriving DecidableEq, Repr

/-- `SENSITIVE_PATTERNS` (source lines 103-112), in object insertion order
as enumerated by `Object.entries`. -/
def SENSITIVE_PATTERNS : List (DetectorType × PatternConfig) :=
  [(.creditCard, ⟨creditCardPattern, "Credit Card Number", .high⟩),
   (.email, ⟨emailPattern, "Email Address", .medium⟩),
   (.phone, ⟨phonePattern, "Phone Number", .medium⟩),
   (.password, ⟨passwordPattern, "Password", .critical⟩),
   (.apiKey, ⟨apiKeyPattern, "API Key/Token", .critical⟩),
   (.awsKey, ⟨awsKeyPattern, "AWS Access Key", .critical⟩),
   (.privateKey, ⟨privateKeyPattern, "Private Key", .critical⟩)]

/-- The pattern registered for a detector key. -/
def patternOf (d : DetectorType) : Rx :=
  match SENSITIVE_PATTERNS.find? (fun tc => tc.1 == d) with
  | some tc => tc.2.pattern
  | none => .eps

/-- All matches of a detector's pattern in a text. -/
def matchesOf (d : DetectorType) (text : String) : List String :=
  matchesOn (patternOf d) text

/-! ## Pattern matcher (source lines 141-158) -/

/-- A finding pushed by `scanText`. -/
structure Finding where
  type : DetectorType
  name : String
  severity : Severity
  count : Nat
  samples : List String
deriving DecidableEq, Repr

/-- The sample redaction `m.slice(0, 4) + '****' + m.slice(-2)`
(source line 153).  JavaScript `slice(-2)` takes the last two characters,
or the whole string when it is shorter. -/
def redact (m : String) : String :=
  String.mk (m.data.take 4) ++ "****" ++ String.mk (m.data.drop (m.data.length - 2))

/-- The detector loop of `scanText` (source lines 145-156): for each
registry entry whose pattern matches, push a finding with the total match
count and the first two matches redacted. -/
def scanTextBody (text : String) : List Finding :=
  SENSITIVE_PATTERNS.filterMap (fun tc =>
    let ms := matchesOn tc.2.pattern text
    if ms.isEmpty then none
    else some ⟨tc.1, tc.2.name, tc.2.severity, ms.length, (ms.take 2).map redact⟩)

/-- `scanText` (source lines 141-158).  The guard
`if (!text || typeof text !== 'string') return findings` rejects every
non-string value and, among strings, exactly the empty string (the only
falsy string). -/
def scanText : JSValue → List Finding
  | .str s => if s = "" then [] else scanTextBody s
  | _ => []

/-! ## Data model of the alert store -/

/-- One externally hosted document as consumed by the scan (source lines
174-208).  `updatedAt` is the parsed `new Date(doc.updatedAt).getTime()`
value in milliseconds. -/
structure Doc where
  id : String
  name : String
  updatedAt : Int
  published : Bool
  browserLink : String
deriving DecidableEq, Repr

/-- A table row; `values` keeps `Object.entries` insertion order.-/
structure Row where
  id : String
  values : List (String × JSValue)
deriving DecidableEq, Repr

/-- A table; `rows` models the demo-mode `table.rows || []` field (absent
becomes the empty list). -/
structure Table where
  id : String
  name : String
  rows : List Row
deriving DecidableEq, Repr

/-- Alert metadata: the detector- and resource-specific facts attached at
each of the three creation sites (source lines 189, 205, 237). -/
inductive Metadata where
  | unused (lastUpdated : Int) (daysSinceUpdate : Int)
  | published (publishedUrl : String)
  | sensitive (tableId tableName columnName : String) (sensitiveType : DetectorType)
deriving DecidableEq, Repr

/-- `resourceType` values used by the source: `document` or `row`. -/
inductive ResourceType where
  | document
  | row
deriving DecidableEq, Repr

/-- The fields supplied to `createAlert` (source lines 180-190, 196-206,
228-238). -/
structure AlertDraft where
  type : AlertType
  severity : Severity
  title : String
  description : String
  docId : String
  docName : String
  resourceId : String
  resourceType : ResourceType
  metadata : Metadata
deriving DecidableEq, Repr

/-- A stored alert (draft fields plus the store-assigned id, status and
timestamps, source lines 128-134). -/
structure Alert where
  id : Nat
  type : AlertType
  severity : Severity
  title : String
  description : String
  docId : String
  docName : String
  resourceId : String
  resourceType : ResourceType
  metadata : Metadata
  status : AlertStatus
  createdAt : Int
  updatedAt : Int
deriving DecidableEq, Repr

/-- The module-level mutable state (source lines 85-87): the retained
document snapshot, the alert array and the id counter. -/
structure State where
  documents : List Doc
  alerts : List Alert
  alertIdCounter : Nat
deriving DecidableEq, Repr

/-- The search in `createAlert` for an open alert with the same
`(type, docId, resourceId)` dedup key (source lines 119-124). -/
def findOpen (st : State) (d : AlertDraft) : Option Alert :=
  st.alerts.find? (fun a =>
    a.type == d.type && a.docId == d.docId && a.resourceId == d.resourceId &&
    a.status == AlertStatus.open')

/-- `createAlert` (source lines 118-139).  A dedup hit returns the existing
alert and leaves the state untouched; otherwise a fresh alert is assigned
the next id, status `open`, both timestamps `now`, and is appended. -/
def createAlert (now : Int) (st : State) (d : AlertDraft) : Alert × State :=
  match findOpen st d with
  | some a => (a, st)
  | none =>
      let a : Alert :=
        { id := st.alertIdCounter, type := d.type, severity := d.severity,
          title := d.title, description := d.description, docId := d.docId,
          docName := d.docName, resourceId := d.resourceId,
          resourceType := d.resourceType, metadata := d.metadata,
          status := .open', createdAt := now, updatedAt := now }
      (a, { st with alerts := st.alerts ++ [a],
                    alertIdCounter := st.alertIdCounter + 1 })

/-- `alerts.find(a => a.id === id)` as used by the alert routes. -/
def findAlert (st : State) (id : Nat) : Option Alert :=
  st.alerts.find? (fun a => a.id == id)

/-- In-place mutation of the first alert with the given id, as JavaScript's
`find`-then-assign does on the shared array element. -/
def updateAlert (alerts : List Alert) (id : Nat) (f : Alert → Alert) : List Alert :=
  match alerts with
  | [] => []
  | a :: rest => if a.id == id then f a :: rest else a :: updateAlert rest id f

/-- The status strings recognized by `Object.values(ALERT_STATUS)`. -/
def parseStatus : String → Option AlertStatus
  | "open" => some .open'
  | "acknowledged" => some .acknowledged
  | "remediated" => some .remediated
  | "ignored" => some .ignored
  | _ => none

/-- Error responses of the alert routes: 404 for an unknown id, 400 for an
unrecognized status value. -/
inductive ApiError where
  | notFound
  | invalidStatus
deriving DecidableEq, Repr

/-- `PATCH /api/alerts/:id/status` (source lines 360-373): look the alert
up, validate the status string, then overwrite `status` and `updatedAt`. -/
def setStatusRoute (now : Int) (st : State) (id : Nat) (status : String) :
    Except ApiError (Alert × State) :=
  match findAlert st id with
  | none => .error .notFound
  | some a =>
      match parseStatus status with
      | none => .error .invalidStatus
      | some newStatus =>
          let upd := updateAlert st.alerts id
            (fun b => { b with status := newStatus, updatedAt := now })
          .ok ({ a with status := newStatus, updatedAt := now },
               { st with alerts := upd })

/-- The external collaborator (the Coda client), as response oracles:
`listDocuments`, `listTables`, `listRows` and `deleteRow` outcomes. -/
structure Coda where
  docs : Except String (List Doc)
  tables : String → Except String (List Table)
  rows : String → String → Except String (List Row)
  deleteRow : String → String → String → Except String Unit

/-- `fetchDocumentsFromCoda` (source lines 39-50): failures are rethrown. -/
def fetchDocumentsFromCoda (c : Coda) : Except String (List Doc) := c.docs

/-- `fetchTablesFromCoda` (source lines 52-60): the catch block logs the
error and returns `[]`, so this call never throws. -/
def fetchTablesFromCoda (c : Coda) (docId : String) : List Table :=
  match c.tables docId with
  | .ok items => items
  | .error _ => []

/-- `fetchRowsFromCoda` (source lines 62-72): same catch-to-empty shape. -/
def fetchRowsFromCoda (c : Coda) (docId tableId : String) : List Row :=
  match c.rows docId tableId with
  | .ok items => items
  | .error _ => []

/-- The `{success, message}` result of the remediation endpoint. -/
structure RemResult where
  success : Bool
  message : String
deriving DecidableEq, Repr

/-- `alert.metadata.tableId` as read by the delete action; on metadata
without that key JavaScript yields `undefined`, which would be coerced
into the request URL. -/
def metadataTableId : Metadata → String
  | .sensitive tableId _ _ _ => tableId
  | _ => "undefined"

/-- `POST /api/alerts/:id/remediate` (source lines 376-417).  The third
component of the result is the trace of `deleteRowFromCoda` invocations
`(docId, tableId, rowId)`, recording whether the external collaborator
was contacted. -/
def remediate (c : Coda) (now : Int) (st : State) (id : Nat) (action : String) :
    Except ApiError (RemResult × State × List (String × String × String)) :=
  match findAlert st id with
  | none => .error .notFound
  | some alert =>
      if action = "delete" then
        if alert.resourceType = .row then
          let call := (alert.docId, metadataTableId alert.metadata, alert.resourceId)
          match c.deleteRow alert.docId (metadataTableId alert.metadata) alert.resourceId with
          | .ok _ =>
              let upd := updateAlert st.alerts id
                (fun b => { b with status := .remediated, updatedAt := now })
              .ok (⟨true, "Row deleted successfully"⟩, { st with alerts := upd }, [call])
          | .error e =>
              .ok (⟨false, "Failed to delete: " ++ e⟩, st, [call])
        else
          .ok (⟨false, "Delete action only supported for table rows"⟩, st, [])
      else if action = "acknowledge" then
        let upd := updateAlert st.alerts id
          (fun b => { b with status := .acknowledged, updatedAt := now })
        .ok (⟨true, "Alert acknowledged"⟩, { st with alerts := upd }, [])
      else if action = "ignore" then
        let upd := updateAlert st.alerts id
          (fun b => { b with status := .ignored, updatedAt := now })
        .ok (⟨true, "Alert ignored"⟩, { st with alerts := upd }, [])
      else
        .ok (⟨false, "Invalid action. Use: delete, acknowledge, or ignore"⟩, st, [])

/-! ## Alert listing (source lines 324-342) -/

/-- The `severityOrder` ranking object used by the sort comparators. -/
def severityOrder : Severity → Nat
  | .critical => 4
  | .high => 3
  | .medium => 2
  | .low => 1

/-- The sort comparator of `GET /api/alerts` and `GET /api/data`:
severity-rank difference, ties broken by `createdAt` difference, both
descending. -/
def compareAlerts (a b : Alert) : Int :=
  let severityDiff : Int := (severityOrder b.severity : Int) - (severityOrder a.severity : Int)
  if severityDiff ≠ 0 then severityDiff else b.createdAt - a.createdAt

/-- `[...alerts].sort(comparator)`: a sort of the alert array by the
comparator (JavaScript guarantees an ordering consistent with a consistent
comparator). -/
def sortAlerts (alerts : List Alert) : List Alert :=
  alerts.mergeSort (fun a b => decide (compareAlerts a b ≤ 0))

/-! ## Scan orchestrator (source lines 164-255) -/

/-- The scan summary object (source line 166). -/
structure ScanResult where
  documentsScanned : Nat
  alertsCreated : Nat
  errors : List (String × String)
deriving DecidableEq, Repr

/-- `TEN_MINUTES_MS` (source line 167). -/
def TEN_MINUTES_MS : Int := 10 * 60 * 1000

/-- The `unused_document` draft (source lines 180-190). -/
def unusedDraft (doc : Doc) (daysSinceUpdate : Int) : AlertDraft :=
  { type := .unused_document, severity := .low,
    title := "Unused Document: " ++ doc.name,
    description := "Document has not been modified in " ++
      toString daysSinceUpdate ++ " days",
    docId := doc.id, docName := doc.name, resourceId := doc.id,
    resourceType := .document,
    metadata := .unused doc.updatedAt daysSinceUpdate }

/-- The `public_document` draft (source lines 196-206). -/
def publicDraft (doc : Doc) : AlertDraft :=
  { type := .public_document, severity := .high,
    title := "Publicly Published: " ++ doc.name,
    description := "Document is publicly accessible - potential data exposure risk",
    docId := doc.id, docName := doc.name, resourceId := doc.id,
    resourceType := .document,
    metadata := .published doc.browserLink }

/-- The `sensitive_data_table` draft for one finding (source lines 228-238). -/
def sensitiveDraft (doc : Doc) (table : Table) (row : Row) (colName : String)
    (f : Finding) : AlertDraft :=
  { type := .sensitive_data_table, severity := f.severity,
    title := f.name ++ " found in: " ++ table.name,
    description := "Detected " ++ toString f.count ++ " instance(s) in column \"" ++
      colName ++ "\"",
    docId := doc.id, docName := doc.name, resourceId := row.id,
    resourceType := .row,
    metadata := .sensitive table.id table.name colName f.type }

/-- One finding of one cell: create the alert and bump `alertsCreated`
(source lines 227-240; the counter is incremented whether or not
`createAlert` deduplicated). -/
def scanFindingStep (now : Int) (doc : Doc) (table : Table) (row : Row)
    (colName : String) (acc : ScanResult × State) (f : Finding) :
    ScanResult × State :=
  let st := (createAlert now acc.2 (sensitiveDraft doc table row colName f)).2
  ({ acc.1 with alertsCreated := acc.1.alertsCreated + 1 }, st)

/-- One `[colName, value]` entry of a row: `scanText(String(value))` then
one alert per finding (source lines 225-241). -/
def scanCellStep (now : Int) (doc : Doc) (table : Table) (row : Row)
    (acc : ScanResult × State) (cv : String × JSValue) : ScanResult × State :=
  (scanText (.str (jsToString cv.2))).foldl
    (scanFindingStep now doc table row cv.1) acc

/-- One row (source lines 223-242). -/
def scanRowStep (now : Int) (doc : Doc) (table : Table)
    (acc : ScanResult × State) (row : Row) : ScanResult × State :=
  row.values.foldl (scanCellStep now doc table row) acc

/-- One table: demo mode reads the embedded `table.rows`, live mode calls
`fetchRowsFromCoda` (which degrades to `[]` on failure) — source lines
215-243. -/
def scanTableStep (c : Coda) (useDummy : Bool) (now : Int) (doc : Doc)
    (acc : ScanResult × State) (table : Table) : ScanResult × State :=
  let rows := if useDummy then table.rows else fetchRowsFromCoda c doc.id table.id
  rows.foldl (scanRowStep now doc table) acc

/-- One document (source lines 174-247): count it, apply the staleness and
publication rules, then scan its tables.  The surrounding `try { ... }
catch` of the source cannot fire: its only fallible calls
(`fetchTablesFromCoda`, `fetchRowsFromCoda`) catch internally and return
`[]`, and everything else in the block is total — so `scanResults.errors`
is never extended. -/
def scanDocStep (c : Coda) (useDummy : Bool) (now : Int)
    (acc : ScanResult × State) (doc : Doc) : ScanResult × State :=
  let res := { acc.1 with documentsScanned := acc.1.documentsScanned + 1 }
  let st := acc.2
  let daysSinceUpdate : Int := now - doc.updatedAt
  let (res, st) :=
    if daysSinceUpdate ≥ TEN_MINUTES_MS then
      ({ res with alertsCreated := res.alertsCreated + 1 },
       (createAlert now st (unusedDraft doc daysSinceUpdate)).2)
    else (res, st)
  let (res, st) :=
    if doc.published then
      ({ res with alertsCreated := res.alertsCreated + 1 },
       (createAlert now st (publicDraft doc)).2)
    else (res, st)
  (fetchTablesFromCoda c doc.id).foldl (scanTableStep c useDummy now doc) (res, st)

/-- `runSecurityScan` (source lines 164-255): fetch the document list
(failure is fatal and propagates), replace the retained snapshot, then
process each document in order. -/
def runSecurityScan (c : Coda) (useDummy : Bool) (now : Int) (st : State) :
    Except String (ScanResult × State) :=
  match fetchDocumentsFromCoda c with
  | .error e => .error e
  | .ok docs =>
      let st := { st with documents := docs }
      .ok (docs.foldl (scanDocStep c useDummy now) (⟨0, 0, []⟩, st))

/-! ## Draft decomposition

The bodies of the scan loops never read the alert store (only
`createAlert` does), so the sequence of drafts a scan submits is a pure
function of the fixture and the clock.  The following definitions name
those draft sequences; the lemmas below prove the scan equal to folding
`createAlert` over them, which is the backbone of the dedup/idempotence
and counting theorems. -/

/-- Drafts submitted for one `[colName, value]` cell. -/
def cellDrafts (doc : Doc) (table : Table) (row : Row) (cv : String × JSValue) :
    List AlertDraft :=
  (scanText (.str (jsToString cv.2))).map (sensitiveDraft doc table row cv.1)

/-- Drafts submitted for one row. -/
def rowDrafts (doc : Doc) (table : Table) (row : Row) : List AlertDraft :=
  row.values.flatMap (cellDrafts doc table row)

/-- Drafts submitted for one table. -/
def tableDrafts (c : Coda) (useDummy : Bool) (doc : Doc) (table : Table) :
    List AlertDraft :=
  (if useDummy then table.rows else fetchRowsFromCoda c doc.id table.id).flatMap
    (rowDrafts doc table)

/-- Drafts submitted for one document (staleness, then publication, then
content findings). -/
def docDrafts (c : Coda) (useDummy : Bool) (now : Int) (doc : Doc) :
    List AlertDraft :=
  (if now - doc.updatedAt ≥ TEN_MINUTES_MS
    then [unusedDraft doc (now - doc.updatedAt)] else []) ++
  (if doc.published then [publicDraft doc] else []) ++
  (fetchTablesFromCoda c doc.id).flatMap (tableDrafts c useDummy doc)

/-- All drafts submitted by one scan over a document list, in order. -/
def scanDrafts (c : Coda) (useDummy : Bool) (now : Int) (docs : List Doc) :
    List AlertDraft :=
  docs.flatMap (docDrafts c useDummy now)

/-- Fold `createAlert` over a draft sequence. -/
def applyDrafts (now : Int) (st : State) (ds : List AlertDraft) : State :=
  ds.foldl (fun st d => (createAlert now st d).2) st

/-- Add `n` to `alertsCreated`. -/
def bump (res : ScanResult) (n : Nat) : ScanResult :=
  { res with alertsCreated := res.alertsCreated + n }

/-! ## The open-alert dedup invariant -/

/-- No two alerts are simultaneously open with the same
`(type, docId, resourceId)` dedup key. -/
def NoTwoOpen (a b : Alert) : Prop :=
  ¬(a.type = b.type ∧ a.docId = b.docId ∧ a.resourceId = b.resourceId ∧
    a.status = .open' ∧ b.status = .open')

instance (a b : Alert) : Decidable (NoTwoOpen a b) := by
  unfold NoTwoOpen
  exact inferInstance

/-- The store-level invariant claimed by the spec: at most one open alert
per dedup key. -/
def OpenDedupInv (st : State) : Prop := st.alerts.Pairwise NoTwoOpen

instance (st : State) : Decidable (OpenDedupInv st) := by
  unfold OpenDedupInv
  exact inferInstance

/-! ## Concrete fixtures used by counterexamples and witnesses -/

/-- The initial module state (source lines 85-87). -/
def initState : State := ⟨[], [], 1⟩

/-- A published document last updated at epoch 0. -/
def doc1 : Doc := ⟨"d1", "Doc One", 0, true, "https://coda.io/d/d1"⟩

/-- A collaborator serving `doc1` with no tables. -/
def codaNoTables : Coda :=
  ⟨.ok [doc1], fun _ => .ok [], fun _ _ => .ok [], fun _ _ _ => .ok ()⟩

/-- The `unused_document` alert raised for `doc1` at `now = 660000` ms
(11 minutes after its last update). -/
def alertUnused1 : Alert :=
  ⟨1, .unused_document, .low, "Unused Document: Doc One",
   "Document has not been modified in 660000 days", "d1", "Doc One", "d1",
   .document, .unused 0 660000, .open', 660000, 660000⟩

/-- The `public_document` alert raised for `doc1` at `now = 660000` ms. -/
def alertPublic2 : Alert :=
  ⟨2, .public_document, .high, "Publicly Published: Doc One",
   "Document is publicly accessible - potential data exposure risk", "d1",
   "Doc One", "d1", .document, .published "https://coda.io/d/d1", .open',
   660000, 660000⟩

/-- The state after one scan of `codaNoTables` from `initState`. -/
def stateAfterScan1 : State := ⟨[doc1], [alertUnused1, alertPublic2], 3⟩

/-- A fresh, unpublished document (no staleness or exposure alerts at
`now = 660000`). -/
def doc2 : Doc := ⟨"d2", "Doc Two", 660000, false, "https://coda.io/d/d2"⟩

/-- A collaborator whose table listing fails for every document. -/
def codaTablesFail : Coda :=
  ⟨.ok [doc2], fun _ => .error "network error", fun _ _ => .ok [],
   fun _ _ _ => .ok ()⟩

/-- An alert that has already been acknowledged. -/
def alertAck : Alert :=
  ⟨1, .public_document, .high, "Publicly Published: Doc One",
   "Document is publicly accessible - potential data exposure risk", "d1",
   "Doc One", "d1", .document, .published "https://coda.io/d/d1",
   .acknowledged, 0, 0⟩

/-- A store holding only the acknowledged alert. -/
def stateAck : State := ⟨[], [alertAck], 2⟩

/-- A draft with a fixed dedup key, used to replay detections. -/
def draftK : AlertDraft :=
  ⟨.public_document, .high, "Publicly Published: Doc X",
   "Document is publicly accessible - potential data exposure risk", "dX",
   "Doc X", "dX", .document, .published "https://coda.io/d/dX"⟩

/-- Step 1: detection creates an open alert for the key. -/
def c4s1 : State := (createAlert 0 initState draftK).2

/-- Step 2: the operator acknowledges it. -/
def c4s2 : State :=
  match setStatusRoute 1 c4s1 1 "acknowledged" with
  | .ok (_, s) => s
  | .error _ => c4s1

/-- Step 3: re-detection creates a fresh open alert for the same key. -/
def c4s3 : State := (createAlert 2 c4s2 draftK).2

/-- Step 4: the first alert's status is set straight back to `open`. -/
def c4s4 : State :=
  match setStatusRoute 3 c4s3 1 "open" with
  | .ok (_, s) => s
  | .error _ => c4s3

/-- An open alert on a document resource. -/
def alertDocOpen : Alert :=
  ⟨1, .public_document, .high, "Publicly Published: Doc One",
   "Document is publicly accessible - potential data exposure risk", "d1",
   "Doc One", "d1", .document, .published "https://coda.io/d/d1", .open', 0, 0⟩

/-- An open alert on a row resource, with the table id in its metadata. -/
def alertRowOpen : Alert :=
  ⟨2, .sensitive_data_table, .critical, "Password found in: Table One",
   "Detected 1 instance(s) in column \"a\"", "d1", "Doc One", "r1", .row,
   .sensitive "t1" "Table One" "a" .password, .open', 0, 0⟩

/-- A store holding the two remediation-target alerts. -/
def stateRem : State := ⟨[], [alertDocOpen, alertRowOpen], 3⟩

/-- A collaborator whose row deletion always fails. -/
def codaDeleteFails : Coda :=
  ⟨.ok [], fun _ => .ok [], fun _ _ => .ok [], fun _ _ _ => .error "boom"⟩

/-! ## Scan decomposition lemmas -/

theorem bump_zero (res : ScanResult) : bump res 0 = res := by
  simp [bump]

theorem bump_bump (res : ScanResult) (m n : Nat) :
    bump (bump res m) n = bump res (m + n) := by
  simp [bump, Nat.add_assoc]

theorem applyDrafts_nil (now : Int) (st : State) : applyDrafts now st [] = st := rfl

theorem applyDrafts_cons (now : Int) (st : State) (d : AlertDraft)
    (ds : List AlertDraft) :
    applyDrafts now st (d :: ds) = applyDrafts now (createAlert now st d).2 ds := rfl

theorem applyDrafts_append (now : Int) (st : State) (ds1 ds2 : List AlertDraft) :
    applyDrafts now st (ds1 ++ ds2) =
      applyDrafts now (applyDrafts now st ds1) ds2 := by
  simp [applyDrafts, List.foldl_append]

theorem flatMap_pure {α β : Type} (f : α → β) (l : List α) :
    l.flatMap (fun x => [f x]) = l.map f := by
  induction l with
  | nil => rfl
  | cons x xs ih => simp [List.flatMap_cons, ih]

/-- A fold whose step submits the drafts `g x` and bumps the counter by
their number is itself a draft submission. -/
theorem foldl_bump_apply {α : Type} (now : Int)
    (step : (ScanResult × State) → α → (ScanResult × State))
    (g : α → List AlertDraft)
    (h : ∀ res st x, step (res, st) x =
      (bump res (g x).length, applyDrafts now st (g x))) :
    ∀ (xs : List α) (res : ScanResult) (st : State),
      xs.foldl step (res, st) =
        (bump res (xs.flatMap g).length, applyDrafts now st (xs.flatMap g)) := by
  intro xs
  induction xs with
  | nil =>
      intro res st
      simp [List.flatMap_nil, bump_zero, applyDrafts_nil]
  | cons x xs ih =>
      intro res st
      rw [List.foldl_cons, h, ih, List.flatMap_cons, List.length_append,
        applyDrafts_append, bump_bump]

theorem scanCellStep_spec (now : Int) (doc : Doc) (table : Table) (row : Row)
    (res : ScanResult) (st : State) (cv : String × JSValue) :
    scanCellStep now doc table row (res, st) cv =
      (bump res (cellDrafts doc table row cv).length,
       applyDrafts now st (cellDrafts doc table row cv)) := by
  have h := foldl_bump_apply now (scanFindingStep now doc table row cv.1)
    (fun f => [sensitiveDraft doc table row cv.1 f])
    (fun res st f => rfl)
    (scanText (.str (jsToString cv.2))) res st
  rw [scanCellStep, h, cellDrafts, flatMap_pure]

theorem scanRowStep_spec (now : Int) (doc : Doc) (table : Table)
    (res : ScanResult) (st : State) (row : Row) :
    scanRowStep now doc table (res, st) row =
      (bump res (rowDrafts doc table row).length,
       applyDrafts now st (rowDrafts doc table row)) := by
  have h := foldl_bump_apply now (scanCellStep now doc table row)
    (cellDrafts doc table row)
    (fun res st cv => scanCellStep_spec now doc table row res st cv)
    row.values res st
  rw [scanRowStep, h, rowDrafts]

theorem scanTableStep_spec (c : Coda) (u : Bool) (now : Int) (doc : Doc)
    (res : ScanResult) (st : State) (table : Table) :
    scanTableStep c u now doc (res, st) table =
      (bump res (tableDrafts c u doc table).length,
       applyDrafts now st (tableDrafts c u doc table)) := by
  have h := foldl_bump_apply now (scanRowStep now doc table)
    (rowDrafts doc table)
    (fun res st row => scanRowStep_spec now doc table res st row)
    (if u then table.rows else fetchRowsFromCoda c doc.id table.id) res st
  rw [scanTableStep, h, tableDrafts]

theorem scanDocStep_spec (c : Coda) (u : Bool) (now : Int)
    (res : ScanResult) (st : State) (doc : Doc) :
    scanDocStep c u now (res, st) doc =
      (⟨res.documentsScanned + 1,
        res.alertsCreated + (docDrafts c u now doc).length, res.errors⟩,
       applyDrafts now st (docDrafts c u now doc)) := by
  have htab := foldl_bump_apply now (scanTableStep c u now doc)
    (tableDrafts c u doc)
    (fun res st t => scanTableStep_spec c u now doc res st t)
    (fetchTablesFromCoda c doc.id)
  rw [scanDocStep, docDrafts]
  by_cases h1 : now - doc.updatedAt ≥ TEN_MINUTES_MS <;>
    by_cases h2 : doc.published <;>
      simp [h1, h2, htab, bump, applyDrafts_append,
        applyDrafts_cons, applyDrafts_nil] <;>
      omega

theorem foldl_scanDocStep (c : Coda) (u : Bool) (now : Int) :
    ∀ (docs : List Doc) (res : ScanResult) (st : State),
      docs.foldl (scanDocStep c u now) (res, st) =
        (⟨res.documentsScanned + docs.length,
          res.alertsCreated + (scanDrafts c u now docs).length, res.errors⟩,
         applyDrafts now st (scanDrafts c u now docs)) := by
  intro docs
  induction docs with
  | nil =>
      intro res st
      simp [scanDrafts, applyDrafts_nil]
  | cons doc docs ih =>
      intro res st
      rw [List.foldl_cons, scanDocStep_spec, ih]
      refine Prod.ext ?_ ?_
      · simp only [scanDrafts, List.flatMap_cons, List.length_append,
          List.length_cons, ScanResult.mk.injEq]
        refine ⟨?_, ?_, ?_⟩ <;> first | omega | rfl | trivial
      · simp only [scanDrafts, List.flatMap_cons, applyDrafts_append]

/-- The scan in closed form: on a successful document fetch it replaces the
snapshot and folds `createAlert` over the scan's draft sequence, counting
one detection per draft and recording no errors. -/
theorem runSecurityScan_ok (c : Coda) (u : Bool) (now : Int) (st : State)
    (docs : List Doc) (h : c.docs = .ok docs) :
    runSecurityScan c u now st =
      .ok (⟨docs.length, (scanDrafts c u now docs).length, []⟩,
           applyDrafts now { st with documents := docs }
             (scanDrafts c u now docs)) := by
  rw [runSecurityScan, fetchDocumentsFromCoda, h]
  simp [foldl_scanDocStep]

/-! ## Alert-store lemmas -/

/-- A dedup hit returns the existing open alert and leaves the whole state
(alerts, counter, documents) untouched. -/
theorem createAlert_found (now : Int) (st : State) (d : AlertDraft) (a : Alert)
    (h : findOpen st d = some a) : createAlert now st d = (a, st) := by
  rw [createAlert, h]

/-- After `createAlert`, an open alert with the draft's dedup key exists. -/
theorem createAlert_self_covers (now : Int) (st : State) (d : AlertDraft) :
    (findOpen (createAlert now st d).2 d).isSome := by
  rw [createAlert]
  cases h : findOpen st d with
  | some a => simp [h]
  | none =>
      simp only [findOpen] at h ⊢
      rw [List.find?_append, h]
      simp

/-- `createAlert` never removes an open alert: coverage is monotone. -/
theorem findOpen_mono (now : Int) (st : State) (d e : AlertDraft)
    (h : (findOpen st e).isSome) :
    (findOpen (createAlert now st d).2 e).isSome := by
  rw [createAlert]
  cases hc : findOpen st d with
  | some a => simpa using h
  | none =>
      simp only [findOpen] at h ⊢
      obtain ⟨a, ha⟩ := Option.isSome_iff_exists.mp h
      rw [List.find?_append, ha]
      simp

theorem applyDrafts_mono (now : Int) :
    ∀ (ds : List AlertDraft) (st : State) (e : AlertDraft),
      (findOpen st e).isSome → (findOpen (applyDrafts now st ds) e).isSome := by
  intro ds
  induction ds with
  | nil => intro st e h; exact h
  | cons d ds ih =>
      intro st e h
      rw [applyDrafts_cons]
      exact ih _ e (findOpen_mono now st d e h)

/-- After submitting a draft sequence, every draft in it is covered by an
open alert. -/
theorem applyDrafts_covers (now : Int) :
    ∀ (ds : List AlertDraft) (st : State) (d : AlertDraft), d ∈ ds →
      (findOpen (applyDrafts now st ds) d).isSome := by
  intro ds
  induction ds with
  | nil => intro st d h; cases h
  | cons d ds ih =>
      intro st e he
      rw [applyDrafts_cons]
      rcases List.mem_cons.mp he with rfl | hm
      · exact applyDrafts_mono now ds _ e (createAlert_self_covers now st e)
      · exact ih _ e hm

/-- Submitting drafts that are all already covered is a no-op on the
state. -/
theorem applyDrafts_noop (now : Int) :
    ∀ (ds : List AlertDraft) (st : State),
      (∀ d ∈ ds, (findOpen st d).isSome) → applyDrafts now st ds = st := by
  intro ds
  induction ds with
  | nil => intro st _; rfl
  | cons d ds ih =>
      intro st h
      obtain ⟨a, ha⟩ := Option.isSome_iff_exists.mp (h d (List.mem_cons_self d ds))
      rw [applyDrafts_cons, createAlert_found now st d a ha]
      exact ih st (fun e he => h e (List.mem_cons_of_mem d he))

/-- Submitting the same draft sequence a second time changes nothing. -/
theorem applyDrafts_idem (now : Int) (st : State) (ds : List AlertDraft) :
    applyDrafts now (applyDrafts now st ds) ds = applyDrafts now st ds :=
  applyDrafts_noop now ds _ (fun d hd => applyDrafts_covers now ds st d hd)

theorem createAlert_documents (now : Int) (st : State) (d : AlertDraft) :
    ((createAlert now st d).2).documents = st.documents := by
  rw [createAlert]
  cases h : findOpen st d <;> rfl

theorem applyDrafts_documents (now : Int) :
    ∀ (ds : List AlertDraft) (st : State),
      (applyDrafts now st ds).documents = st.documents := by
  intro ds
  induction ds with
  | nil => intro st; rfl
  | cons d ds ih =>
      intro st
      rw [applyDrafts_cons, ih, createAlert_documents]

theorem createAlert_length_le (now : Int) (st : State) (d : AlertDraft) :
    ((createAlert now st d).2).alerts.length ≤ st.alerts.length + 1 := by
  rw [createAlert]
  cases h : findOpen st d with
  | some a => simp
  | none => simp

theorem applyDrafts_length_le (now : Int) :
    ∀ (ds : List AlertDraft) (st : State),
      (applyDrafts now st ds).alerts.length ≤ st.alerts.length + ds.length := by
  intro ds
  induction ds with
  | nil => intro st; simp [applyDrafts_nil]
  | cons d ds ih =>
      intro st
      rw [applyDrafts_cons]
      calc (applyDrafts now (createAlert now st d).2 ds).alerts.length
          ≤ ((createAlert now st d).2).alerts.length + ds.length := ih _
        _ ≤ st.alerts.length + 1 + ds.length :=
            Nat.add_le_add_right (createAlert_length_le now st d) _
        _ = st.alerts.length + (d :: ds).length := by simp; omega

/-! ## `updateAlert` lemmas -/

/-- Updating by id preserves the position found by the id search. -/
theorem find?_updateAlert (id : Nat) (f : Alert → Alert)
    (hf : ∀ b, (f b).id = b.id) :
    ∀ (l : List Alert) (a : Alert),
      l.find? (fun b => b.id == id) = some a →
      (updateAlert l id f).find? (fun b => b.id == id) = some (f a) := by
  intro l
  induction l with
  | nil => intro a h; simp at h
  | cons b rest ih =>
      intro a h
      by_cases hb : (b.id == id) = true
      · rw [@List.find?_cons_of_pos _ (fun x => x.id == id) b rest hb] at h
        injection h with h
        subst h
        simp only [updateAlert]
        rw [if_pos hb]
        exact @List.find?_cons_of_pos _ (fun x => x.id == id) (f b) rest
          (by simpa [hf] using hb)
      · rw [@List.find?_cons_of_neg _ (fun x => x.id == id) b rest hb] at h
        simp only [updateAlert]
        rw [if_neg hb, @List.find?_cons_of_neg _ (fun x => x.id == id) b
          (updateAlert rest id f) hb]
        exact ih a h

/-- Every element of the updated list is an original element or the image
of one. -/
theorem mem_updateAlert (id : Nat) (f : Alert → Alert) :
    ∀ (l : List Alert) (x : Alert), x ∈ updateAlert l id f →
      x ∈ l ∨ ∃ y ∈ l, x = f y := by
  intro l
  induction l with
  | nil => intro x h; cases h
  | cons b rest ih =>
      intro x h
      rw [updateAlert] at h
      by_cases hb : (b.id == id) = true
      · rw [if_pos hb] at h
        rcases List.mem_cons.mp h with rfl | hm
        · exact Or.inr ⟨b, List.mem_cons_self b rest, rfl⟩
        · exact Or.inl (List.mem_cons_of_mem b hm)
      · rw [if_neg hb] at h
        rcases List.mem_cons.mp h with rfl | hm
        · exact Or.inl (List.mem_cons_self x rest)
        · rcases ih x hm with hx | ⟨y, hy, hxy⟩
          · exact Or.inl (List.mem_cons_of_mem b hx)
          · exact Or.inr ⟨y, List.mem_cons_of_mem b hy, hxy⟩

/-- Overwriting one alert's status with a non-open value preserves the
open-dedup invariant. -/
theorem pairwise_updateAlert (id : Nat) (f : Alert → Alert)
    (hf : ∀ b, (f b).status ≠ .open') :
    ∀ (l : List Alert), l.Pairwise NoTwoOpen →
      (updateAlert l id f).Pairwise NoTwoOpen := by
  intro l
  induction l with
  | nil => intro _; exact List.Pairwise.nil
  | cons b rest ih =>
      intro h
      rcases List.pairwise_cons.mp h with ⟨hb, hrest⟩
      rw [updateAlert]
      by_cases hid : (b.id == id) = true
      · rw [if_pos hid]
        refine List.pairwise_cons.mpr ⟨?_, hrest⟩
        intro x _ hc
        exact hf b hc.2.2.2.1
      · rw [if_neg hid]
        refine List.pairwise_cons.mpr ⟨?_, ih hrest⟩
        intro x hx
        rcases mem_updateAlert id f rest x hx with hm | ⟨y, _, rfl⟩
        · exact hb x hm
        · intro hc
          exact hf y hc.2.2.2.2

/-! ## Sort-comparator lemmas -/

theorem compareAlerts_le_trans (a b c : Alert) (hab : compareAlerts a b ≤ 0)
    (hbc : compareAlerts b c ≤ 0) : compareAlerts a c ≤ 0 := by
  simp only [compareAlerts] at hab hbc ⊢
  split_ifs at hab hbc ⊢ <;> omega

theorem compareAlerts_total (a b : Alert) :
    compareAlerts a b ≤ 0 ∨ compareAlerts b a ≤ 0 := by
  simp only [compareAlerts]
  split_ifs <;> omega

theorem compareAlerts_le_interp (a b : Alert) (h : compareAlerts a b ≤ 0) :
    severityOrder b.severity ≤ severityOrder a.severity ∧
    (severityOrder b.severity = severityOrder a.severity →
      b.createdAt ≤ a.createdAt) := by
  simp only [compareAlerts] at h
  split_ifs at h with hd
  · exact ⟨by omega, fun hh => by omega⟩
  · exact ⟨by omega, fun hh => by omega⟩

/-! ## Claim theorems -/

/-- C6: the list operation returns the stored alerts sorted by
non-increasing severity rank under `critical > high > medium > low` and,
within equal severity, by non-increasing `createdAt` (most recent first);
the output is a permutation of the stored alerts. -/
theorem list_sorted_by_severity_then_createdAt (alerts : List Alert) :
    (sortAlerts alerts).Pairwise (fun a b =>
      severityOrder b.severity ≤ severityOrder a.severity ∧
      (severityOrder b.severity = severityOrder a.severity →
        b.createdAt ≤ a.createdAt)) ∧
    (sortAlerts alerts).Perm alerts := by
  constructor
  · have htrans : ∀ x y z : Alert,
        (decide (compareAlerts x y ≤ 0)) = true →
        (decide (compareAlerts y z ≤ 0)) = true →
        (decide (compareAlerts x z ≤ 0)) = true := by
      intro x y z h1 h2
      rw [decide_eq_true_eq] at h1 h2 ⊢
      exact compareAlerts_le_trans x y z h1 h2
    have htotal : ∀ x y : Alert,
        ((decide (compareAlerts x y ≤ 0)) || (decide (compareAlerts y x ≤ 0))) = true := by
      intro x y
      rcases compareAlerts_total x y with h | h <;> simp [h]
    have hs := List.sorted_mergeSort htrans htotal alerts
    exact hs.imp (fun h => compareAlerts_le_interp _ _ (decide_eq_true_eq.mp h))
  · exact List.mergeSort_perm alerts _

/-- C9: a document 11 minutes stale (`now = 660000` ms, `updatedAt = 0`)
and published, with no tables, yields in one scan exactly two alerts —
one `unused_document` of severity low and one `public_document` of
severity high, both for that document. -/
theorem scan_stale_published_two_alerts :
    runSecurityScan codaNoTables false 660000 initState =
      .ok (⟨1, 2, []⟩, stateAfterScan1) ∧
    stateAfterScan1.alerts.map (fun a => (a.type, a.severity, a.docId)) =
      [(.unused_document, .low, "d1"), (.public_document, .high, "d1")] :=
  ⟨rfl, rfl⟩

theorem scanTextBody_empty : scanTextBody "" = [] := rfl

theorem scanText_str (s : String) : scanText (.str s) = scanTextBody s := by
  rw [scanText]
  by_cases hs : s = ""
  · rw [if_pos hs, hs, scanTextBody_empty]
  · rw [if_neg hs]

/-- C10: on the scan path every cell value is coerced with
`String(value)` before reaching the pattern matcher, so the cell findings
are exactly those of the detector loop on the coerced string — for every
value, including non-strings — and the non-string early-return of
`scanText` is never taken; a purely numeric cell is genuinely scanned (it
can trigger the credit-card detector). -/
theorem scan_coerces_cell_values :
    (∀ (now : Int) (doc : Doc) (table : Table) (row : Row)
      (acc : ScanResult × State) (cv : String × JSValue),
      scanCellStep now doc table row acc cv =
        (scanTextBody (jsToString cv.2)).foldl
          (scanFindingStep now doc table row cv.1) acc) ∧
    scanTextBody (jsToString (JSValue.num 4111111111111111)) ≠ [] := by
  constructor
  · intro now doc table row acc cv
    rw [scanCellStep, scanText_str]
  · decide

/-- C5: the `delete` remediation on a `document`-resource alert fails
immediately with `success = false`, leaves the store untouched and never
invokes the external delete (empty call trace); on a `row`-resource alert
whose external delete fails, it returns `success = false` with the
underlying error text embedded in the message and leaves the store (hence
the alert and its `open` status) entirely unmodified. -/
theorem remediate_delete_failure_paths (c : Coda) (now : Int) (st : State)
    (id : Nat) (a : Alert) (h : findAlert st id = some a) :
    (a.resourceType = .document →
      remediate c now st id "delete" =
        .ok (⟨false, "Delete action only supported for table rows"⟩, st, [])) ∧
    (∀ e, a.resourceType = .row →
      c.deleteRow a.docId (metadataTableId a.metadata) a.resourceId = .error e →
      remediate c now st id "delete" =
        .ok (⟨false, "Failed to delete: " ++ e⟩, st,
             [(a.docId, metadataTableId a.metadata, a.resourceId)])) := by
  constructor
  · intro hdoc
    rw [remediate, h]
    simp [hdoc]
  · intro e hrow hdel
    rw [remediate, h]
    simp [hrow, hdel]

/-- Witness for C5 at the concrete two-alert store and a failing delete
oracle. -/
theorem remediate_delete_failure_paths_witness :
    remediate codaDeleteFails 9 stateRem 1 "delete" =
      .ok (⟨false, "Delete action only supported for table rows"⟩, stateRem, []) ∧
    remediate codaDeleteFails 9 stateRem 2 "delete" =
      .ok (⟨false, "Failed to delete: " ++ "boom"⟩, stateRem,
           [("d1", "t1", "r1")]) :=
  ⟨(remediate_delete_failure_paths codaDeleteFails 9 stateRem 1 alertDocOpen rfl).1 rfl,
   (remediate_delete_failure_paths codaDeleteFails 9 stateRem 2 alertRowOpen rfl).2
     "boom" rfl rfl⟩

/-- C1 counterexample: a second scan of the unchanged fixture reports
`alertsCreated = 2` although the alert store is exactly the same before
and after (zero alerts were actually created — both detections were dedup
hits), so `alertsCreated` does not equal the number of alerts created. -/
theorem alertsCreated_not_created_count :
    runSecurityScan codaNoTables false 660000 initState =
      .ok (⟨1, 2, []⟩, stateAfterScan1) ∧
    runSecurityScan codaNoTables false 660000 stateAfterScan1 =
      .ok (⟨1, 2, []⟩, stateAfterScan1) ∧
    stateAfterScan1.alerts.length = 2 :=
  ⟨rfl, rfl, rfl⟩

/-- C1 amended: `alertsCreated` counts every detection submitted to
`createAlert` — one per scan draft, dedup hits included — so it equals the
length of the scan's draft sequence and is only an upper bound on the
number of alerts actually created. -/
theorem alertsCreated_eq_detections (c : Coda) (u : Bool) (now : Int)
    (st : State) (docs : List Doc) (r : ScanResult) (s' : State)
    (hd : c.docs = .ok docs) (h : runSecurityScan c u now st = .ok (r, s')) :
    r.alertsCreated = (scanDrafts c u now docs).length ∧
    s'.alerts.length ≤ st.alerts.length + r.alertsCreated := by
  rw [runSecurityScan_ok c u now st docs hd] at h
  simp only [Except.ok.injEq, Prod.mk.injEq] at h
  obtain ⟨hr, hs⟩ := h
  subst hs
  subst hr
  constructor
  · rfl
  · exact applyDrafts_length_le now (scanDrafts c u now docs)
      { st with documents := docs }

/-- Witness for the amended C1 at the concrete fixture. -/
theorem alertsCreated_eq_detections_witness :
    (⟨1, 2, []⟩ : ScanResult).alertsCreated =
      (scanDrafts codaNoTables false 660000 [doc1]).length ∧
    stateAfterScan1.alerts.length ≤
      initState.alerts.length + (⟨1, 2, []⟩ : ScanResult).alertsCreated :=
  alertsCreated_eq_detections codaNoTables false 660000 initState [doc1]
    ⟨1, 2, []⟩ stateAfterScan1 rfl rfl

/-- C2 counterexample: with a collaborator whose table listing fails with
`"network error"`, the scan still returns `errors = []` — no
`(docId, error)` record is appended. -/
theorem table_fetch_failure_not_recorded :
    codaTablesFail.tables "d2" = .error "network error" ∧
    runSecurityScan codaTablesFail false 660000 initState =
      .ok (⟨1, 0, []⟩, ⟨[doc2], [], 1⟩) :=
  ⟨rfl, rfl⟩

/-- C2 amended: a table-listing failure is caught inside
`fetchTablesFromCoda`, which returns an empty table list, so the scan
continues with the next document (every fetched document is still counted)
but records nothing — `ScanResult.errors` is empty on every successful
run. -/
theorem table_fetch_failure_degrades_to_empty :
    (∀ (c : Coda) (docId e : String), c.tables docId = .error e →
      fetchTablesFromCoda c docId = []) ∧
    (∀ (c : Coda) (u : Bool) (now : Int) (st : State) (r : ScanResult)
      (s' : State), runSecurityScan c u now st = .ok (r, s') →
      r.errors = []) ∧
    (∀ (c : Coda) (u : Bool) (now : Int) (st : State) (docs : List Doc)
      (r : ScanResult) (s' : State), c.docs = .ok docs →
      runSecurityScan c u now st = .ok (r, s') →
      r.documentsScanned = docs.length) := by
  refine ⟨?_, ?_, ?_⟩
  · intro c docId e h
    rw [fetchTablesFromCoda, h]
  · intro c u now st r s' h
    cases hd : c.docs with
    | error e =>
        rw [runSecurityScan, fetchDocumentsFromCoda, hd] at h
        cases h
    | ok docs =>
        rw [runSecurityScan_ok c u now st docs hd] at h
        simp only [Except.ok.injEq, Prod.mk.injEq] at h
        obtain ⟨hr, -⟩ := h
        subst hr
        rfl
  · intro c u now st docs r s' hd h
    rw [runSecurityScan_ok c u now st docs hd] at h
    simp only [Except.ok.injEq, Prod.mk.injEq] at h
    obtain ⟨hr, -⟩ := h
    subst hr
    rfl

/-- Witness for the amended C2 at the failing-tables fixture. -/
theorem table_fetch_failure_degrades_to_empty_witness :
    fetchTablesFromCoda codaTablesFail "d2" = [] ∧
    (⟨1, 0, []⟩ : ScanResult).errors = [] ∧
    (⟨1, 0, []⟩ : ScanResult).documentsScanned = [doc2].length :=
  ⟨table_fetch_failure_degrades_to_empty.1 codaTablesFail "d2" "network error" rfl,
   table_fetch_failure_degrades_to_empty.2.1 codaTablesFail false 660000 initState
     ⟨1, 0, []⟩ ⟨[doc2], [], 1⟩ rfl,
   table_fetch_failure_degrades_to_empty.2.2 codaTablesFail false 660000 initState
     [doc2] ⟨1, 0, []⟩ ⟨[doc2], [], 1⟩ rfl rfl⟩

theorem patternOf_eq : ∀ tc ∈ SENSITIVE_PATTERNS, patternOf tc.1 = tc.2.pattern := by
  decide

/-- C7 amended: every sample a finding carries is the redaction — first 4
characters, the fixed `****` mask, last 2 characters — of one of the
pattern's matches in the text (it can coincide with the raw match only
when the match already has that shape); and `"password: hunter2"` yields
exactly one finding: `password`, severity critical, count 1, sample
`"pass****r2"`. -/
theorem samples_are_redactions :
    (∀ (text : String) (f : Finding) (s : String), f ∈ scanTextBody text →
      s ∈ f.samples → ∃ m, m ∈ matchesOf f.type text ∧ s = redact m) ∧
    scanTextBody "password: hunter2" =
      [⟨.password, "Password", .critical, 1, ["pass****r2"]⟩] := by
  constructor
  · intro text f s hf hs
    rw [scanTextBody, List.mem_filterMap] at hf
    obtain ⟨tc, htc, heq⟩ := hf
    simp only at heq
    split at heq
    · cases heq
    · injection heq with heq
      subst heq
      simp only [List.mem_map] at hs
      obtain ⟨m, hm, hms⟩ := hs
      refine ⟨m, ?_, hms.symm⟩
      rw [matchesOf, patternOf_eq tc htc]
      exact List.mem_of_mem_take hm
  · rfl

/-- C7 counterexample: on the input `"pwd:****xy"` the password pattern's
match is the whole string and its redaction reproduces it verbatim, so the
emitted sample equals the raw matched text. -/
theorem sample_can_equal_raw_match :
    scanTextBody "pwd:****xy" =
      [⟨.password, "Password", .critical, 1, ["pwd:****xy"]⟩] ∧
    matchesOf .password "pwd:****xy" = ["pwd:****xy"] :=
  ⟨rfl, rfl⟩

/-- Witness for the amended C7 on the `"password: hunter2"` scenario. -/
theorem samples_are_redactions_witness :
    ∃ m, m ∈ matchesOf DetectorType.password "password: hunter2" ∧
      "pass****r2" = redact m :=
  samples_are_redactions.1 "password: hunter2"
    ⟨.password, "Password", .critical, 1, ["pass****r2"]⟩ "pass****r2"
    (by decide) (by decide)

/-- Re-installing a state's own document snapshot is the identity. -/
theorem set_documents_self (st : State) (docs : List Doc)
    (h : st.documents = docs) : { st with documents := docs } = st := by
  cases st
  subst h
  rfl

/-- Any successful remediation leaves the store unchanged or overwrites one
alert's status with a non-open value. -/
theorem remediate_state_cases (c : Coda) (now : Int) (st : State) (id : Nat)
    (action : String) (r : RemResult) (st' : State)
    (tr : List (String × String × String))
    (h : remediate c now st id action = .ok (r, st', tr)) :
    st' = st ∨ ∃ ns, ns ≠ AlertStatus.open' ∧
      st' = { st with alerts := updateAlert st.alerts id (fun b => { b with status := ns, updatedAt := now }) } := by
  cases hA : findAlert st id with
  | none =>
      simp only [remediate, hA] at h
      cases h
  | some alert =>
      simp only [remediate, hA] at h
      by_cases hd : action = "delete"
      · rw [if_pos hd] at h
        by_cases hrow : alert.resourceType = .row
        · rw [if_pos hrow] at h
          cases hdel : c.deleteRow alert.docId (metadataTableId alert.metadata)
              alert.resourceId with
          | ok u =>
              rw [hdel] at h
              simp only [Except.ok.injEq, Prod.mk.injEq] at h
              exact Or.inr ⟨.remediated, by decide, h.2.1.symm⟩
          | error e =>
              rw [hdel] at h
              simp only [Except.ok.injEq, Prod.mk.injEq] at h
              exact Or.inl h.2.1.symm
        · rw [if_neg hrow] at h
          simp only [Except.ok.injEq, Prod.mk.injEq] at h
          exact Or.inl h.2.1.symm
      · rw [if_neg hd] at h
        by_cases hack : action = "acknowledge"
        · rw [if_pos hack] at h
          simp only [Except.ok.injEq, Prod.mk.injEq] at h
          exact Or.inr ⟨.acknowledged, by decide, h.2.1.symm⟩
        · rw [if_neg hack] at h
          by_cases hig : action = "ignore"
          · rw [if_pos hig] at h
            simp only [Except.ok.injEq, Prod.mk.injEq] at h
            exact Or.inr ⟨.ignored, by decide, h.2.1.symm⟩
          · rw [if_neg hig] at h
            simp only [Except.ok.injEq, Prod.mk.injEq] at h
            exact Or.inl h.2.1.symm

/-- A successful direct status set stores the parsed status by overwriting
the found alert. -/
theorem setStatusRoute_state (now : Int) (st : State) (id : Nat) (s : String)
    (ns : AlertStatus) (a : Alert) (st' : State)
    (hp : parseStatus s = some ns)
    (h : setStatusRoute now st id s = .ok (a, st')) :
    st' = { st with alerts := updateAlert st.alerts id (fun b => { b with status := ns, updatedAt := now }) } := by
  cases hA : findAlert st id with
  | none =>
      simp only [setStatusRoute, hA] at h
      cases h
  | some a0 =>
      simp only [setStatusRoute, hA, hp, Except.ok.injEq, Prod.mk.injEq] at h
      exact h.2.symm

/-- C3 counterexample: the direct status-set moves an acknowledged alert
straight back to `open` — a backward transition the state machine
forbids. -/
theorem setStatus_reopens_acknowledged :
    alertAck.status = .acknowledged ∧
    setStatusRoute 5 stateAck 1 "open" =
      .ok ({ alertAck with status := .open', updatedAt := 5 },
           ⟨[], [{ alertAck with status := .open', updatedAt := 5 }], 2⟩) :=
  ⟨rfl, rfl⟩

/-- C3 amended: neither the direct status-set nor the remediation actions
inspect the current status — a recognized status value always overwrites
it (including moving a non-open alert back to `open`), and
`acknowledge`/`ignore` always install their target status. -/
theorem status_overwritten_unconditionally :
    (∀ (now : Int) (st : State) (id : Nat) (s : String) (ns : AlertStatus)
      (a : Alert), findAlert st id = some a → parseStatus s = some ns →
      ∃ st', setStatusRoute now st id s =
          .ok ({ a with status := ns, updatedAt := now }, st') ∧
        findAlert st' id = some { a with status := ns, updatedAt := now }) ∧
    (∀ (c : Coda) (now : Int) (st : State) (id : Nat) (a : Alert),
      findAlert st id = some a →
      ∃ st', remediate c now st id "acknowledge" =
          .ok (⟨true, "Alert acknowledged"⟩, st', []) ∧
        findAlert st' id =
          some { a with status := .acknowledged, updatedAt := now }) ∧
    (∀ (c : Coda) (now : Int) (st : State) (id : Nat) (a : Alert),
      findAlert st id = some a →
      ∃ st', remediate c now st id "ignore" =
          .ok (⟨true, "Alert ignored"⟩, st', []) ∧
        findAlert st' id =
          some { a with status := .ignored, updatedAt := now }) := by
  refine ⟨?_, ?_, ?_⟩
  · intro now st id s ns a h hs
    refine ⟨{ st with alerts := updateAlert st.alerts id (fun b => { b with status := ns, updatedAt := now }) }, ?_, ?_⟩
    · simp only [setStatusRoute, h, hs]
    · exact find?_updateAlert id (fun b => { b with status := ns, updatedAt := now }) (fun b => rfl) st.alerts a h
  · intro c now st id a h
    refine ⟨{ st with alerts := updateAlert st.alerts id (fun b => { b with status := .acknowledged, updatedAt := now }) }, ?_, ?_⟩
    · simp [remediate, h]
    · exact find?_updateAlert id (fun b => { b with status := .acknowledged, updatedAt := now }) (fun b => rfl) st.alerts a h
  · intro c now st id a h
    refine ⟨{ st with alerts := updateAlert st.alerts id (fun b => { b with status := .ignored, updatedAt := now }) }, ?_, ?_⟩
    · simp [remediate, h]
    · exact find?_updateAlert id (fun b => { b with status := .ignored, updatedAt := now }) (fun b => rfl) st.alerts a h

/-- Witness for the amended C3: the acknowledged alert is set back to
`open` by the route, and acknowledged/ignored again by remediation,
regardless of its current status. -/
theorem status_overwritten_unconditionally_witness :
    (∃ st', setStatusRoute 7 stateAck 1 "open" =
        .ok ({ alertAck with status := .open', updatedAt := 7 }, st') ∧
      findAlert st' 1 = some { alertAck with status := .open', updatedAt := 7 }) ∧
    (∃ st', remediate codaDeleteFails 8 stateAck 1 "acknowledge" =
        .ok (⟨true, "Alert acknowledged"⟩, st', []) ∧
      findAlert st' 1 =
        some { alertAck with status := .acknowledged, updatedAt := 8 }) ∧
    (∃ st', remediate codaDeleteFails 8 stateAck 1 "ignore" =
        .ok (⟨true, "Alert ignored"⟩, st', []) ∧
      findAlert st' 1 =
        some { alertAck with status := .ignored, updatedAt := 8 }) :=
  ⟨status_overwritten_unconditionally.1 7 stateAck 1 "open" .open' alertAck rfl rfl,
   status_overwritten_unconditionally.2.1 codaDeleteFails 8 stateAck 1 alertAck rfl,
   status_overwritten_unconditionally.2.2 codaDeleteFails 8 stateAck 1 alertAck rfl⟩

/-- C4 counterexample: create an open alert for a key, acknowledge it,
re-create a fresh open alert for the same key, then set the first alert's
status back to `open` via the status route — the store now holds two open
alerts with the same `(type, docId, resourceId)` triple. -/
theorem two_open_alerts_same_key :
    (setStatusRoute 1 c4s1 1 "acknowledged").isOk = true ∧
    (setStatusRoute 3 c4s3 1 "open").isOk = true ∧
    (c4s4.alerts.filter (fun a =>
      a.type == AlertType.public_document && a.docId == "dX" &&
      a.resourceId == "dX" && a.status == AlertStatus.open')).length = 2 :=
  ⟨rfl, rfl, rfl⟩

/-- C4 amended: the at-most-one-open-alert-per-key invariant is preserved
by `createAlert`, by every remediation action, and by the direct
status-set whenever the new status is not `open` (only setting a status
back to `open` can break it, as the counterexample shows); and alerts that
have left the open state never block creation of a fresh open alert with
the same key. -/
theorem open_dedup_invariant_preserved :
    (∀ (now : Int) (st : State) (d : AlertDraft),
      OpenDedupInv st → OpenDedupInv (createAlert now st d).2) ∧
    (∀ (c : Coda) (now : Int) (st : State) (id : Nat) (action : String)
      (r : RemResult) (st' : State) (tr : List (String × String × String)),
      OpenDedupInv st → remediate c now st id action = .ok (r, st', tr) →
      OpenDedupInv st') ∧
    (∀ (now : Int) (st : State) (id : Nat) (s : String) (ns : AlertStatus)
      (a : Alert) (st' : State),
      OpenDedupInv st → parseStatus s = some ns → ns ≠ .open' →
      setStatusRoute now st id s = .ok (a, st') → OpenDedupInv st') ∧
    (∀ (now : Int) (st : State) (d : AlertDraft), findOpen st d = none →
      (createAlert now st d).2.alerts =
        st.alerts ++ [(createAlert now st d).1] ∧
      (createAlert now st d).1.status = .open') := by
  refine ⟨?_, ?_, ?_, ?_⟩
  · intro now st d h
    rw [OpenDedupInv, createAlert]
    cases hc : findOpen st d with
    | some a => exact h
    | none =>
        rw [findOpen] at hc
        have hnone := List.find?_eq_none.mp hc
        refine List.pairwise_append.mpr ⟨h, List.pairwise_singleton _ _, ?_⟩
        intro x hx y hy
        rcases List.mem_singleton.mp hy with rfl
        intro hcon
        obtain ⟨ht, hd2, hr2, hxo, -⟩ := hcon
        exact hnone x hx (by simp_all)
  · intro c now st id action r st' tr h hrem
    rcases remediate_state_cases c now st id action r st' tr hrem with
      rfl | ⟨ns, hns, rfl⟩
    · exact h
    · exact pairwise_updateAlert id
        (fun b => { b with status := ns, updatedAt := now })
        (fun b => by simpa using hns) st.alerts h
  · intro now st id s ns a st' h hp hns hroute
    have hst := setStatusRoute_state now st id s ns a st' hp hroute
    subst hst
    exact pairwise_updateAlert id
      (fun b => { b with status := ns, updatedAt := now })
      (fun b => by simpa using hns) st.alerts h
  · intro now st d h
    constructor <;> simp [createAlert, h]

/-- Witness for the amended C4 on concrete stores. -/
theorem open_dedup_invariant_preserved_witness :
    OpenDedupInv (createAlert 0 initState draftK).2 ∧
    OpenDedupInv
      ⟨[], [{ alertDocOpen with status := .acknowledged, updatedAt := 8 },
            alertRowOpen], 3⟩ ∧
    OpenDedupInv ⟨[], [{ alertAck with status := .ignored, updatedAt := 9 }], 2⟩ ∧
    ((createAlert 4 stateAck (publicDraft doc1)).2.alerts =
        stateAck.alerts ++ [(createAlert 4 stateAck (publicDraft doc1)).1] ∧
      (createAlert 4 stateAck (publicDraft doc1)).1.status = .open') :=
  ⟨open_dedup_invariant_preserved.1 0 initState draftK (by decide),
   open_dedup_invariant_preserved.2.1 codaDeleteFails 8 stateRem 1 "acknowledge"
     ⟨true, "Alert acknowledged"⟩ _ [] (by decide) rfl,
   open_dedup_invariant_preserved.2.2.1 9 stateAck 1 "ignored" .ignored
     { alertAck with status := .ignored, updatedAt := 9 } _ (by decide) rfl
     (by decide) rfl,
   open_dedup_invariant_preserved.2.2.2 4 stateAck (publicDraft doc1) rfl⟩

/-- C8: running the scan twice against an unchanged fixture (same
collaborator responses, same clock) leaves the store exactly as after the
first run — in particular the same total number of alerts — because every
detection of the second run hits an existing open alert; and a dedup hit
returns the existing alert with the whole state (fields, timestamps, id
counter) unchanged. -/
theorem scan_idempotent :
    (∀ (c : Coda) (u : Bool) (now : Int) (s0 : State) (r1 : ScanResult)
      (s1 : State) (r2 : ScanResult) (s2 : State),
      runSecurityScan c u now s0 = .ok (r1, s1) →
      runSecurityScan c u now s1 = .ok (r2, s2) →
      s2 = s1 ∧ s2.alerts.length = s1.alerts.length) ∧
    (∀ (now : Int) (st : State) (d : AlertDraft) (a : Alert),
      findOpen st d = some a → createAlert now st d = (a, st)) := by
  constructor
  · intro c u now s0 r1 s1 r2 s2 h1 h2
    cases hd : c.docs with
    | error e =>
        rw [runSecurityScan, fetchDocumentsFromCoda, hd] at h1
        cases h1
    | ok docs =>
        rw [runSecurityScan_ok c u now s0 docs hd] at h1
        rw [runSecurityScan_ok c u now s1 docs hd] at h2
        simp only [Except.ok.injEq, Prod.mk.injEq] at h1 h2
        obtain ⟨-, hs1⟩ := h1
        obtain ⟨-, hs2⟩ := h2
        subst hs1
        have hdocs : (applyDrafts now { s0 with documents := docs }
            (scanDrafts c u now docs)).documents = docs := by
          rw [applyDrafts_documents]
        rw [← hs2, set_documents_self _ _ hdocs, applyDrafts_idem]
        exact ⟨rfl, rfl⟩
  · intro now st d a h
    exact createAlert_found now st d a h

/-- Witness for C8 at the concrete fixture: the second scan reproduces the
first run's state, and a replayed detection returns the stored alert with
the state untouched. -/
theorem scan_idempotent_witness :
    (stateAfterScan1 = stateAfterScan1 ∧
      stateAfterScan1.alerts.length = stateAfterScan1.alerts.length) ∧
    createAlert 7 stateAfterScan1 (publicDraft doc1) =
      (alertPublic2, stateAfterScan1) :=
  ⟨scan_idempotent.1 codaNoTables false 660000 initState ⟨1, 2, []⟩
      stateAfterScan1 ⟨1, 2, []⟩ stateAfterScan1 rfl rfl,
   scan_idempotent.2 7 stateAfterScan1 (publicDraft doc1) alertPublic2 rfl⟩

end SecureCoda
